import Mathlib

/-!
# gost: start-up sequence of `cmd/gost/main.go`, and the routing engine's contracts

The first part embeds `main` of `src/cmd/gost/main.go` as a function from the
parsed flags and the results of the functions it calls to the sequence of
effects `main` performs and the way it ends.  Types and functions that
`main` uses but that are declared in other packages (`config`, `logger`,
`metrics`, `buildConfigFromCmd`, ...) are taken as parameters.

The second part models the Bypass matcher and `Chain.Dial`, whose code is not
among the sources, from their description in the specification.
-/

namespace Gost

/-! ## Declarations `main` relies on -/

/-- Types declared outside `main.go`, with the zero value of each group of
struct fields that `main` does not name. -/
structure Decls where
  /-- Values of Go's `error` interface (non-nil). -/
  Err : Type
  /-- The type `logger.Logger`. -/
  Logger : Type
  /-- What `buildService` returns a list of. -/
  Service : Type
  /-- What `buildAPIService` returns. -/
  APIService : Type
  /-- What `buildMetricsService` returns. -/
  MetricsService : Type
  /-- Fields of `config.LogConfig` other than `Level`. -/
  LogFields : Type
  logZero : LogFields
  /-- Fields of `config.APIConfig` other than `Addr`. -/
  APIFields : Type
  apiZero : APIFields
  /-- Fields of `config.MetricsConfig` other than `Addr` and `Path`. -/
  MetricsFields : Type
  metricsZero : MetricsFields
  /-- Fields of `config.ProfilingConfig` other than `Addr` and `Enable`. -/
  ProfilingFields : Type
  /-- The type `config.TLSConfig`. -/
  TLSConfig : Type
  /-- Fields of `config.Config` that `main` does not name. -/
  ConfigFields : Type
  configZero : ConfigFields

/-- The struct `config.LogConfig`. -/
structure LogConfig (D : Decls) where
  Level : String
  others : D.LogFields

/-- The struct `config.APIConfig`. -/
structure APIConfig (D : Decls) where
  Addr : String
  others : D.APIFields

/-- The struct `config.MetricsConfig`. -/
structure MetricsConfig (D : Decls) where
  Addr : String
  Path : String
  others : D.MetricsFields

/-- The struct `config.ProfilingConfig`. -/
structure ProfilingConfig (D : Decls) where
  Addr : String
  Enable : Bool
  others : D.ProfilingFields

/-- The struct `config.Config`; a pointer field is an `Option`, `none` being
`nil`. -/
structure Config (D : Decls) where
  Log : Option (LogConfig D)
  API : Option (APIConfig D)
  Metrics : Option (MetricsConfig D)
  Profiling : Option (ProfilingConfig D)
  TLS : Option D.TLSConfig
  others : D.ConfigFields

/-- The composite literal `config.LogConfig{}`. -/
def LogConfig.zero (D : Decls) : LogConfig D :=
  { Level := "", others := D.logZero }

/-- The composite literal `config.Config{}`. -/
def Config.zero (D : Decls) : Config D :=
  { Log := none, API := none, Metrics := none, Profiling := none, TLS := none,
    others := D.configZero }

/-- The package-level flag variables after `flag.Parse()` (lines 19-25 and
31-39); the defaults are the empty string, the empty list and `false`.  With
`-V`, `init` exits at line 44 and `main` does not start. -/
structure Flags where
  cfgFile : String
  outputFormat : String
  services : List String
  nodes : List String
  debug : Bool
  apiAddr : String
  metricsAddr : String

/-- The constants and functions `main` calls, as parameters.  A Go function
returning `(value, error)` whose value is only used when the error is nil is
an `Except`; `buildConfigFromCmd` keeps both components because `main` tests
the returned pointer for `nil` independently of the error. -/
structure Env (D : Decls) where
  /-- The string `string(logger.DebugLevel)`. -/
  DebugLevel : String
  /-- The constant `metrics.DefaultPath`. -/
  DefaultPath : String
  /-- The value `logger.Default()`, the initial value of `log`. -/
  defaultLogger : D.Logger
  buildConfigFromCmd : List String → List String → Option (Config D) × Option D.Err
  /-- The method `cfg.ReadFile(file)`: the updated `*cfg` and the error. -/
  ReadFile : Config D → String → Config D × Option D.Err
  /-- The method `cfg.Load()`: the updated `*cfg` and the error. -/
  Load : Config D → Config D × Option D.Err
  logFromConfig : Option (LogConfig D) → D.Logger
  /-- The error returned by `cfg.Write(os.Stdout, format)`. -/
  Write : Config D → String → Option D.Err
  buildAPIService : APIConfig D → Except D.Err D.APIService
  buildMetricsService : MetricsConfig D → Except D.Err D.MetricsService
  buildService : Config D → List D.Service

/-- The effects of `main`, in program order.  A `go` statement is recorded as
the launch of its task. -/
inductive Event (D : Decls) where
  /-- Line 83, `logger.SetDefault(log)`. -/
  | setDefaultLogger (log : D.Logger)
  /-- Line 86, `cfg.Write(os.Stdout, outputFormat)`. -/
  | writeStdout (cfg : Config D) (format : String)
  /-- Lines 93-100, the task running `http.ListenAndServe(addr, nil)`. -/
  | goProfiling (addr : String)
  /-- Line 104. -/
  | buildAPIService (c : APIConfig D)
  /-- Lines 110-113, the task running the API service's `Serve`. -/
  | goAPIServe (s : D.APIService)
  /-- Line 117. -/
  | buildMetricsService (c : MetricsConfig D)
  /-- Lines 123-126, the task running the metrics service's `Serve`. -/
  | goMetricsServe (s : D.MetricsService)
  /-- Line 129. -/
  | buildDefaultTLSConfig (t : Option D.TLSConfig)
  /-- Line 131. -/
  | buildService (cfg : Config D)
  /-- Line 133, `go svc.Serve()`. -/
  | goServe (svc : D.Service)
  /-- Line 136. -/
  | setGlobal (cfg : Config D)

/-- How `main` ends. -/
inductive Terminal (D : Decls) where
  /-- The call `log.Fatal(err)` on the logger `log`, which ends the process. -/
  | fatal (log : D.Logger) (err : D.Err)
  /-- The call `os.Exit(code)`. -/
  | exit (code : Nat)
  /-- A field access through a nil `*config.Config`: a run-time panic. -/
  | nilDereference
  /-- The statement `select {}` of line 138. -/
  | blocked

/-- The state at line 77: `cfg` and `err`, unless a statement before it
panicked. -/
inductive Obtained (D : Decls) where
  | nilDereference
  | done (cfg : Option (Config D)) (err : Option D.Err)

/-- Lines 53-58. -/
def applyDebug {D : Decls} (env : Env D) (f : Flags) (cfg : Option (Config D)) :
    Option (Config D) :=
  match f.debug, cfg with
  | true, some c =>
    let l : LogConfig D :=
      match c.Log with
      | none => LogConfig.zero D
      | some l => l
    some { c with Log := some { l with Level := env.DebugLevel } }
  | _, _ => cfg

/-- Lines 59-63; `none` is the panic of assigning `cfg.API` through a nil
`cfg`. -/
def applyAPI {D : Decls} (f : Flags) (cfg : Option (Config D)) :
    Option (Option (Config D)) :=
  if f.apiAddr ≠ "" then
    match cfg with
    | none => none
    | some c => some (some { c with API := some { Addr := f.apiAddr, others := D.apiZero } })
  else some cfg

/-- Lines 64-69; `none` is the panic of assigning `cfg.Metrics` through a nil
`cfg`. -/
def applyMetrics {D : Decls} (env : Env D) (f : Flags) (cfg : Option (Config D)) :
    Option (Option (Config D)) :=
  if f.metricsAddr ≠ "" then
    match cfg with
    | none => none
    | some c =>
      some (some { c with
        Metrics := some { Addr := f.metricsAddr, Path := env.DefaultPath,
                          others := D.metricsZero } })
  else some cfg

/-- The condition of line 51. -/
def cmdMode (f : Flags) : Bool :=
  decide (f.services.length > 0) || decide (f.apiAddr ≠ "")

/-- Lines 49-76. -/
def obtainConfig {D : Decls} (env : Env D) (f : Flags) : Obtained D :=
  if cmdMode f then
    let r := env.buildConfigFromCmd f.services f.nodes
    match applyAPI f (applyDebug env f r.1) with
    | none => .nilDereference
    | some cfg =>
      match applyMetrics env f cfg with
      | none => .nilDereference
      | some cfg => .done cfg r.2
  else if f.cfgFile ≠ "" then
    let r := env.ReadFile (Config.zero D) f.cfgFile
    .done (some r.1) r.2
  else
    let r := env.Load (Config.zero D)
    .done (some r.1) r.2

/-- A run: the effects performed and the way it ended. -/
abbrev Run (D : Decls) := List (Event D) × Terminal D

/-- Put effects in front of the rest of a run. -/
def Run.after {D : Decls} (evs : List (Event D)) (r : Run D) : Run D :=
  (evs ++ r.1, r.2)

/-- Lines 129-138. -/
def runServices {D : Decls} (env : Env D) (cfg : Config D) : Run D :=
  (.buildDefaultTLSConfig cfg.TLS :: .buildService cfg ::
      ((env.buildService cfg).map .goServe ++ [.setGlobal cfg]),
   .blocked)

/-- Lines 116-138. -/
def runMetrics {D : Decls} (env : Env D) (cfg : Config D) (log : D.Logger) : Run D :=
  match cfg.Metrics with
  | none => runServices env cfg
  | some m =>
    match env.buildMetricsService m with
    | .error e => ([.buildMetricsService m], .fatal log e)
    | .ok s => Run.after [.buildMetricsService m, .goMetricsServe s] (runServices env cfg)

/-- Lines 103-138. -/
def runAPI {D : Decls} (env : Env D) (cfg : Config D) (log : D.Logger) : Run D :=
  match cfg.API with
  | none => runMetrics env cfg log
  | some a =>
    match env.buildAPIService a with
    | .error e => ([.buildAPIService a], .fatal log e)
    | .ok s => Run.after [.buildAPIService a, .goAPIServe s] (runMetrics env cfg log)

/-- Lines 92-101. -/
def profilingEvents {D : Decls} (cfg : Config D) : List (Event D) :=
  match cfg.Profiling with
  | none => []
  | some p =>
    if p.Enable then [.goProfiling (if p.Addr = "" then ":6060" else p.Addr)] else []

/-- Lines 92-138. -/
def runFrom92 {D : Decls} (env : Env D) (cfg : Config D) (log : D.Logger) : Run D :=
  Run.after (profilingEvents cfg) (runAPI env cfg log)

/-- Lines 85-138. -/
def runOutput {D : Decls} (env : Env D) (f : Flags) (cfg : Config D) (log : D.Logger) :
    Run D :=
  if f.outputFormat ≠ "" then
    match env.Write cfg f.outputFormat with
    | some e => ([.writeStdout cfg f.outputFormat], .fatal log e)
    | none => ([.writeStdout cfg f.outputFormat], .exit 0)
  else runFrom92 env cfg log

/-- The function `main` (lines 48-139).  Deferred calls (lines 108, 121) never
run, because `main` does not return. -/
def main {D : Decls} (env : Env D) (f : Flags) : Run D :=
  match obtainConfig env f with
  | .nilDereference => ([], .nilDereference)
  | .done _ (some e) => ([], .fatal env.defaultLogger e)
  | .done none none => ([], .nilDereference)
  | .done (some cfg) none =>
    let log := env.logFromConfig cfg.Log
    Run.after [.setDefaultLogger log] (runOutput env f cfg log)

/-- An effect that builds or starts the profiling server, the API service,
the metrics service or a proxy service. -/
def Event.startsService {D : Decls} : Event D → Bool
  | .goProfiling _ => true
  | .buildAPIService _ => true
  | .goAPIServe _ => true
  | .buildMetricsService _ => true
  | .goMetricsServe _ => true
  | .buildService _ => true
  | .goServe _ => true
  | _ => false

/-- The effect is a write of the configuration to standard output. -/
def Event.isWrite {D : Decls} : Event D → Bool
  | .writeStdout _ _ => true
  | _ => false

/-! ## The Bypass matcher -/

/-- Modelled from the spec: the polarity `allow|deny` of a Bypass rule (§3);
the matcher's code is not among the sources. -/
inductive Polarity where
  | allow
  | deny
  deriving DecidableEq, Repr

/-- Modelled from the spec: the host of a query, a name or an IPv4 address
given as a 32-bit number (§4.5 `Matches(host, port)`). -/
inductive Host where
  | name (s : String)
  | ip (addr : Nat)
  deriving DecidableEq, Repr

/-- The IPv4 address `a.b.c.d` as a number. -/
def ipv4 (a b c d : Nat) : Nat :=
  ((a * 256 + b) * 256 + c) * 256 + d

/-- Modelled from the spec: the host part of the pattern grammar of §4.5,
"exact host, suffix-wildcard host, CIDR block". -/
inductive HostPattern where
  | exact (h : Host)
  | wildcard (ending : String)
  | cidr (base : Nat) (bits : Nat)
  deriving DecidableEq, Repr

/-- Modelled from the spec: a pattern of §4.5, a host pattern with the
"optional `:port` or port range suffix" (`lo`, `hi` inclusive; a single port
has `lo = hi`). -/
structure Pattern where
  host : HostPattern
  ports : Option (Nat × Nat)
  deriving DecidableEq, Repr

/-- Modelled from the spec: a Bypass rule, "(pattern, allow|deny)" (§3). -/
structure Rule where
  pattern : Pattern
  polarity : Polarity
  deriving DecidableEq, Repr

/-- Modelled from the spec: the Bypass of §3 and §6, "an ordered rule list and
a default polarity". -/
structure Bypass where
  rules : List Rule
  default : Polarity
  deriving DecidableEq, Repr

/-- Modelled from the spec: whether a host pattern matches a host.  A CIDR
block of `bits` leading bits matches the addresses that agree with its base
on those bits. -/
def HostPattern.matches : HostPattern → Host → Bool
  | .exact h, host => decide (h = host)
  | .wildcard ending, .name s => ending.data.isSuffixOf s.data
  | .wildcard _, .ip _ => false
  | .cidr base bits, .ip addr =>
    decide (bits ≤ 32) && decide (addr / 2 ^ (32 - bits) = base / 2 ^ (32 - bits))
  | .cidr _ _, .name _ => false

/-- Modelled from the spec: whether a pattern matches `(host, port)`. -/
def Pattern.matches (p : Pattern) (host : Host) (port : Nat) : Bool :=
  p.host.matches host &&
    match p.ports with
    | none => true
    | some (lo, hi) => decide (lo ≤ port) && decide (port ≤ hi)

/-- Modelled from the spec: `Matches(host, port)` of §4.5, "iterate rules in
declared order, track last matching rule's polarity; return that polarity, or
the list's configured default if no rule matched". -/
def Bypass.Matches (b : Bypass) (host : Host) (port : Nat) : Polarity :=
  (b.rules.foldl
    (fun tracked r => if r.pattern.matches host port then some r.polarity else tracked)
    none).getD b.default

/-! ## Chain dialing -/

/-- Declarations in which every undeclared type is `String` or `Nat`. -/
def sampleDecls : Decls :=
  { Err := String, Logger := String, Service := String, APIService := String,
    MetricsService := String, LogFields := Nat, logZero := 0, APIFields := Nat,
    apiZero := 0, MetricsFields := Nat, metricsZero := 0, ProfilingFields := Nat,
    TLSConfig := Nat, ConfigFields := Nat, configZero := 0 }

/-- A configuration with a log section, an API section and a metrics section. -/
def sampleConfig : Config sampleDecls :=
  { Log := some { Level := "info", others := (7 : Nat) },
    API := some { Addr := ":1", others := (3 : Nat) },
    Metrics := some { Addr := ":2", Path := "/m", others := (4 : Nat) },
    Profiling := none, TLS := none, others := (5 : Nat) }

/-- An environment whose `buildConfigFromCmd` yields `sampleConfig`, whose
`Write` succeeds and whose `buildService` yields two services. -/
def sampleEnv : Env sampleDecls :=
  { DebugLevel := "debug", DefaultPath := "/metrics", defaultLogger := "default",
    buildConfigFromCmd := fun _ _ => (some sampleConfig, none),
    ReadFile := fun c _ => (c, none),
    Load := fun c => (c, none),
    logFromConfig := fun _ => "configured",
    Write := fun _ _ => none,
    buildAPIService := fun a => .ok a.Addr,
    buildMetricsService := fun m => .ok m.Addr,
    buildService := fun _ => ["svc-0", "svc-1"] }

/-- An environment whose `buildConfigFromCmd` fails, returning `nil` and an
error. -/
def failingEnv : Env sampleDecls :=
  { sampleEnv with buildConfigFromCmd := fun _ _ => (none, some "bad service") }

/-- The flags of `gost -L :8080 -D -api :18080 -metrics :9000`. -/
def sampleFlags : Flags :=
  { cfgFile := "", outputFormat := "", services := [":8080"], nodes := [],
    debug := true, apiAddr := ":18080", metricsAddr := ":9000" }

/-- The flags of `gost -L :8080 -O yaml`. -/
def outputFlags : Flags :=
  { cfgFile := "", outputFormat := "yaml", services := [":8080"], nodes := [],
    debug := false, apiAddr := "", metricsAddr := "" }

/-- The rule list of the scenario of §8: `10.0.0.0/8` deny, then
`10.1.0.0/16` allow, both for any port. -/
def scenarioRules : List Rule :=
  [ { pattern := { host := .cidr (ipv4 10 0 0 0) 8, ports := none }, polarity := .deny },
    { pattern := { host := .cidr (ipv4 10 1 0 0) 16, ports := none }, polarity := .allow } ]

theorem cmdMode_of {f : Flags} (h : f.services.length > 0 ∨ f.apiAddr ≠ "") :
    cmdMode f = true := by
  unfold cmdMode
  rcases h with h | h
  · simp [h]
  · simp [h]

/-- In command-line mode with a non-nil configuration returned by
`buildConfigFromCmd`, line 77 is reached with the configuration below and the
error that `buildConfigFromCmd` returned. -/
theorem obtainConfig_cmd {D : Decls} (env : Env D) (f : Flags) (c : Config D)
    (err : Option D.Err) (hmode : f.services.length > 0 ∨ f.apiAddr ≠ "")
    (hcfg : env.buildConfigFromCmd f.services f.nodes = (some c, err)) :
    obtainConfig env f = .done (some
      { c with
        Log := if f.debug then
            some { Level := env.DebugLevel,
                   others := match c.Log with
                     | none => D.logZero
                     | some l => l.others }
          else c.Log
        API := if f.apiAddr ≠ "" then some { Addr := f.apiAddr, others := D.apiZero }
          else c.API
        Metrics := if f.metricsAddr ≠ "" then
            some { Addr := f.metricsAddr, Path := env.DefaultPath, others := D.metricsZero }
          else c.Metrics }) err := by
  unfold obtainConfig
  rw [cmdMode_of hmode]
  simp only [if_true, hcfg]
  obtain ⟨log, api, metrics, profiling, tls, others⟩ := c
  cases hd : f.debug <;> by_cases ha : f.apiAddr = "" <;> by_cases hm : f.metricsAddr = "" <;>
    cases log <;>
    simp [applyDebug, applyAPI, applyMetrics, hd, ha, hm, LogConfig.zero]

/-- When line 77 is reached with a non-nil error, `main` ends in `log.Fatal`
of that error on the default logger, having performed no effect. -/
theorem main_error_fatal {D : Decls} (env : Env D) (f : Flags) (cfg : Option (Config D))
    (e : D.Err) (h : obtainConfig env f = .done cfg (some e)) :
    main env f = ([], .fatal env.defaultLogger e) := by
  unfold main
  rw [h]
  cases cfg <;> rfl

/-- Outside command-line mode, an error of `cfg.ReadFile` or `cfg.Load` ends
`main` in `log.Fatal` of that error, no effect performed. -/
theorem main_file_error_fatal {D : Decls} (env : Env D) (f : Flags) (e : D.Err)
    (hmode : cmdMode f = false)
    (herr : (if f.cfgFile ≠ "" then (env.ReadFile (Config.zero D) f.cfgFile).2
              else (env.Load (Config.zero D)).2) = some e) :
    main env f = ([], .fatal env.defaultLogger e) := by
  by_cases hc : f.cfgFile = ""
  · apply main_error_fatal env f (some (env.Load (Config.zero D)).1)
    simp [obtainConfig, hmode, hc] at herr ⊢
    exact herr
  · apply main_error_fatal env f (some (env.ReadFile (Config.zero D) f.cfgFile).1)
    simp [obtainConfig, hmode, hc] at herr ⊢
    exact herr

/-- C1 (the code departs from it): when `buildConfigFromCmd` fails with a nil
configuration and the `-api` or the `-metrics` address is set, `main` panics on
the nil pointer at line 60 or 65; `log.Fatal` is not called and no effect is
performed. -/
theorem main_nil_config_panics {D : Decls} (env : Env D) (f : Flags) (e : D.Err)
    (hmode : f.services.length > 0 ∨ f.apiAddr ≠ "")
    (hcfg : env.buildConfigFromCmd f.services f.nodes = (none, some e))
    (hflag : f.apiAddr ≠ "" ∨ f.metricsAddr ≠ "") :
    main env f = ([], .nilDereference) ∧ main env f ≠ ([], .fatal env.defaultLogger e) := by
  have h : obtainConfig env f = .nilDereference := by
    unfold obtainConfig
    rw [cmdMode_of hmode]
    simp only [if_true, hcfg]
    have hd : applyDebug env f (none : Option (Config D)) = none := by
      unfold applyDebug
      cases f.debug <;> rfl
    rw [hd]
    by_cases ha : f.apiAddr = ""
    · have hm : f.metricsAddr ≠ "" := by
        rcases hflag with h | h
        · exact absurd ha h
        · exact h
      simp [applyAPI, applyMetrics, ha, hm]
    · simp [applyAPI, ha]
  have hmain : main env f = ([], .nilDereference) := by
    unfold main
    rw [h]
  refine ⟨hmain, ?_⟩
  rw [hmain]
  intro hne
  cases hne

/-- The failing run of C1: `gost -L :8080 -D -api :18080 -metrics :9000` when
`buildConfigFromCmd` returns `(nil, err)`. -/
theorem main_nil_config_panics_witness :
    (sampleFlags.services.length > 0 ∨ sampleFlags.apiAddr ≠ "") ∧
    failingEnv.buildConfigFromCmd sampleFlags.services sampleFlags.nodes
      = (none, some "bad service") ∧
    main failingEnv sampleFlags = ([], .nilDereference) ∧
    main failingEnv sampleFlags ≠ ([], .fatal failingEnv.defaultLogger "bad service") :=
  ⟨Or.inl (by decide), rfl,
   main_nil_config_panics failingEnv sampleFlags "bad service" (Or.inl (by decide)) rfl
     (Or.inl (by decide))⟩

/-- C5: when the configuration was obtained without error (line 77 is reached
with a non-nil `cfg` and a nil `err`) and the `-O` format is non-empty, `main`
sets the logger, writes the configuration to standard output in that format,
and then ends in `os.Exit(0)` if the write succeeded and in `log.Fatal` of the
write error if it failed; in both cases nothing builds or starts the
profiling server, the API service, the metrics service or a proxy service.
When the format is empty, `main` writes nothing to standard output and
continues with line 92. -/
theorem main_output_format {D : Decls} (env : Env D) (f : Flags) (cfg : Config D)
    (h : obtainConfig env f = .done (some cfg) none) :
    (f.outputFormat ≠ "" →
      (env.Write cfg f.outputFormat = none →
        main env f =
          ([.setDefaultLogger (env.logFromConfig cfg.Log),
            .writeStdout cfg f.outputFormat], .exit 0)) ∧
      (∀ e, env.Write cfg f.outputFormat = some e →
        main env f =
          ([.setDefaultLogger (env.logFromConfig cfg.Log),
            .writeStdout cfg f.outputFormat], .fatal (env.logFromConfig cfg.Log) e)) ∧
      (∀ ev ∈ (main env f).1, ev.startsService = false)) ∧
    (f.outputFormat = "" →
      main env f =
        Run.after [.setDefaultLogger (env.logFromConfig cfg.Log)]
          (runFrom92 env cfg (env.logFromConfig cfg.Log)) ∧
      (∀ ev ∈ (main env f).1, ev.isWrite = false)) := by
  have hmain : main env f =
      Run.after [.setDefaultLogger (env.logFromConfig cfg.Log)]
        (runOutput env f cfg (env.logFromConfig cfg.Log)) := by
    unfold main
    rw [h]
  constructor
  · intro hfmt
    cases hw : env.Write cfg f.outputFormat with
    | none =>
      have hrun : main env f =
          ([.setDefaultLogger (env.logFromConfig cfg.Log),
            .writeStdout cfg f.outputFormat], .exit 0) := by
        rw [hmain]
        simp [runOutput, hfmt, hw, Run.after]
      refine ⟨fun _ => hrun, ?_, ?_⟩
      · intro e he
        cases he
      · rw [hrun]
        intro ev hev
        simp only [List.mem_cons, List.mem_singleton, List.not_mem_nil, or_false] at hev
        rcases hev with rfl | rfl <;> rfl
    | some e0 =>
      have hrun : main env f =
          ([.setDefaultLogger (env.logFromConfig cfg.Log),
            .writeStdout cfg f.outputFormat],
           .fatal (env.logFromConfig cfg.Log) e0) := by
        rw [hmain]
        simp [runOutput, hfmt, hw, Run.after]
      refine ⟨?_, ?_, ?_⟩
      · intro hn
        cases hn
      · intro e he
        cases he
        exact hrun
      · rw [hrun]
        intro ev hev
        simp only [List.mem_cons, List.mem_singleton, List.not_mem_nil, or_false] at hev
        rcases hev with rfl | rfl <;> rfl
  · intro hfmt
    have hrun : main env f =
        Run.after [.setDefaultLogger (env.logFromConfig cfg.Log)]
          (runFrom92 env cfg (env.logFromConfig cfg.Log)) := by
      rw [hmain]
      simp [runOutput, hfmt]
    refine ⟨hrun, ?_⟩
    rw [hrun]
    intro ev hev
    have hserv : ∀ ev ∈ (runServices env cfg).1, ev.isWrite = false := by
      intro ev hev
      simp only [runServices, List.mem_cons, List.mem_append, List.mem_map,
        List.mem_singleton, List.not_mem_nil, or_false] at hev
      rcases hev with rfl | rfl | ⟨s, _, rfl⟩ | rfl <;> rfl
    have hmet : ∀ ev ∈ (runMetrics env cfg (env.logFromConfig cfg.Log)).1,
        ev.isWrite = false := by
      intro ev hev
      unfold runMetrics at hev
      split at hev
      · exact hserv ev hev
      · split at hev
        · simp only [List.mem_singleton] at hev
          rw [hev]; rfl
        · simp only [Run.after, List.mem_append, List.mem_cons, List.not_mem_nil,
            or_false] at hev
          rcases hev with (rfl | rfl) | hev
          · rfl
          · rfl
          · exact hserv ev hev
    have hapi : ∀ ev ∈ (runAPI env cfg (env.logFromConfig cfg.Log)).1,
        ev.isWrite = false := by
      intro ev hev
      unfold runAPI at hev
      split at hev
      · exact hmet ev hev
      · split at hev
        · simp only [List.mem_singleton] at hev
          rw [hev]; rfl
        · simp only [Run.after, List.mem_append, List.mem_cons, List.not_mem_nil,
            or_false] at hev
          rcases hev with (rfl | rfl) | hev
          · rfl
          · rfl
          · exact hmet ev hev
    have hprof : ∀ ev ∈ profilingEvents cfg, ev.isWrite = false := by
      intro ev hev
      unfold profilingEvents at hev
      split at hev
      · cases hev
      · split at hev
        · simp only [List.mem_singleton] at hev
          rw [hev]; rfl
        · cases hev
    simp only [Run.after, runFrom92, List.mem_append, List.mem_cons, List.not_mem_nil,
      or_false] at hev
    rcases hev with rfl | hev | hev
    · rfl
    · exact hprof ev hev
    · exact hapi ev hev

/-- The run of `gost -L :8080 -O yaml` with a successful write: the logger is
set, the configuration is written, and the process exits with status 0. -/
theorem main_output_format_witness :
    obtainConfig sampleEnv outputFlags = .done (some sampleConfig) none ∧
    main sampleEnv outputFlags =
      ([.setDefaultLogger "configured", .writeStdout sampleConfig "yaml"], .exit 0) :=
  ⟨rfl, ((main_output_format sampleEnv outputFlags sampleConfig rfl).1 (by decide)).1 rfl⟩

/-- C6: in command-line mode with a non-nil configuration returned by
`buildConfigFromCmd`, line 77 is reached with a configuration whose `API` is
the API config made of the `-api` address and zero values when that address
is non-empty, whose `Metrics` has the `-metrics` address and
`metrics.DefaultPath` when that address is non-empty, and whose `API` and
`Metrics` are what `buildConfigFromCmd` returned when the respective flag is
empty. -/
theorem cmdline_api_metrics {D : Decls} (env : Env D) (f : Flags) (c : Config D)
    (err : Option D.Err) (hmode : f.services.length > 0 ∨ f.apiAddr ≠ "")
    (hcfg : env.buildConfigFromCmd f.services f.nodes = (some c, err)) :
    ∃ final, obtainConfig env f = .done (some final) err ∧
      (f.apiAddr ≠ "" → final.API = some { Addr := f.apiAddr, others := D.apiZero }) ∧
      (f.apiAddr = "" → final.API = c.API) ∧
      (f.metricsAddr ≠ "" →
        ∃ m, final.Metrics = some m ∧ m.Addr = f.metricsAddr ∧ m.Path = env.DefaultPath) ∧
      (f.metricsAddr = "" → final.Metrics = c.Metrics) := by
  refine ⟨_, obtainConfig_cmd env f c err hmode hcfg, ?_, ?_, ?_, ?_⟩
  · intro h
    simp [h]
  · intro h
    simp [h]
  · intro h
    exact ⟨{ Addr := f.metricsAddr, Path := env.DefaultPath, others := D.metricsZero },
      by simp [h], rfl, rfl⟩
  · intro h
    simp [h]

/-- With `gost -L :8080 -D -api :18080 -metrics :9000` the API config
returned by `buildConfigFromCmd` is replaced. -/
theorem cmdline_api_metrics_witness :
    (sampleFlags.services.length > 0 ∨ sampleFlags.apiAddr ≠ "") ∧
    sampleEnv.buildConfigFromCmd sampleFlags.services sampleFlags.nodes
      = (some sampleConfig, none) ∧
    ∃ final, obtainConfig sampleEnv sampleFlags = .done (some final) none ∧
      final.API = some { Addr := ":18080", others := (0 : Nat) } :=
  ⟨Or.inl (by decide), rfl,
   (cmdline_api_metrics sampleEnv sampleFlags sampleConfig none (Or.inl (by decide)) rfl).imp
     (fun _ h => ⟨h.1, h.2.1 (by decide)⟩)⟩

/-- C7: in command-line mode with a non-nil configuration returned by
`buildConfigFromCmd`, line 77 is reached with a configuration whose `Log`, if
`-D` is set, is non-nil with `Level` equal to `string(logger.DebugLevel)` and
with the other fields of the returned `Log` when that was non-nil, and, if `-D`
is not set, is the `Log` that `buildConfigFromCmd` returned. -/
theorem cmdline_debug_log {D : Decls} (env : Env D) (f : Flags) (c : Config D)
    (err : Option D.Err) (hmode : f.services.length > 0 ∨ f.apiAddr ≠ "")
    (hcfg : env.buildConfigFromCmd f.services f.nodes = (some c, err)) :
    ∃ final, obtainConfig env f = .done (some final) err ∧
      (f.debug = true →
        ∃ l, final.Log = some l ∧ l.Level = env.DebugLevel ∧
          ∀ l0, c.Log = some l0 → l.others = l0.others) ∧
      (f.debug = false → final.Log = c.Log) := by
  refine ⟨_, obtainConfig_cmd env f c err hmode hcfg, ?_, ?_⟩
  · intro h
    refine ⟨{ Level := env.DebugLevel,
              others := match c.Log with
                | none => D.logZero
                | some l => l.others }, by simp [h], rfl, ?_⟩
    intro l0 hl0
    simp [hl0]
  · intro h
    simp [h]

/-- With `gost -L :8080 -D -api :18080 -metrics :9000` the returned log
section keeps its other fields and gets the debug level. -/
theorem cmdline_debug_log_witness :
    (sampleFlags.services.length > 0 ∨ sampleFlags.apiAddr ≠ "") ∧
    sampleEnv.buildConfigFromCmd sampleFlags.services sampleFlags.nodes
      = (some sampleConfig, none) ∧
    ∃ final, obtainConfig sampleEnv sampleFlags = .done (some final) none ∧
      ∃ l, final.Log = some l ∧ l.Level = "debug" ∧ l.others = (7 : Nat) :=
  ⟨Or.inl (by decide), rfl,
   (cmdline_debug_log sampleEnv sampleFlags sampleConfig none (Or.inl (by decide)) rfl).imp
     (fun _ h => ⟨h.1, (h.2.1 rfl).imp (fun _ hl => ⟨hl.1, hl.2.1, hl.2.2 _ rfl⟩)⟩)⟩

/-! ## Theorems about the Bypass matcher -/

/-- Tracking the last matching rule from no rule at all: either the list
splits at a matching rule after which no rule matches, and that rule's
polarity is tracked, or no rule matches and nothing is tracked. -/
theorem track_last_match (p : Rule → Bool) (rules : List Rule) :
    (∃ pre r post, rules = pre ++ r :: post ∧ p r = true ∧ (∀ q ∈ post, p q = false) ∧
        rules.foldl (fun tracked r => if p r then some r.polarity else tracked) none
          = some r.polarity) ∨
    ((∀ r ∈ rules, p r = false) ∧
        rules.foldl (fun tracked r => if p r then some r.polarity else tracked) none
          = none) := by
  induction rules using List.reverseRecOn with
  | nil =>
    right
    exact ⟨fun r hr => absurd hr (List.not_mem_nil r), rfl⟩
  | append_singleton l a ih =>
    rw [List.foldl_append]
    cases hpa : p a with
    | true =>
      left
      refine ⟨l, a, [], rfl, hpa, fun q hq => absurd hq (List.not_mem_nil q), ?_⟩
      simp [hpa]
    | false =>
      rcases ih with ⟨pre, r, post, hsplit, hr, hpost, hres⟩ | ⟨hnone, hres⟩
      · left
        refine ⟨pre, r, post ++ [a], ?_, hr, ?_, ?_⟩
        · rw [hsplit]
          simp
        · intro q hq
          rcases List.mem_append.mp hq with hq | hq
          · exact hpost q hq
          · rw [List.mem_singleton.mp hq]
            exact hpa
        · simp [hpa, hres]
      · right
        refine ⟨?_, ?_⟩
        · intro q hq
          rcases List.mem_append.mp hq with hq | hq
          · exact hnone q hq
          · rw [List.mem_singleton.mp hq]
            exact hpa
        · simp [hpa, hres]

/-- C3: for every Bypass and every query `(host, port)`, either some rule
matches, and `Matches` returns the polarity of the last rule in declaration
order that matches, or no rule matches, and `Matches` returns the default
polarity; and for the rules `10.0.0.0/8` deny, `10.1.0.0/16` allow, the query
`10.1.2.3` is allowed for every port and every default. -/
theorem bypass_last_match_wins :
    (∀ (b : Bypass) (host : Host) (port : Nat),
      (∃ pre r post, b.rules = pre ++ r :: post ∧ r.pattern.matches host port = true ∧
          (∀ q ∈ post, q.pattern.matches host port = false) ∧
          b.Matches host port = r.polarity) ∨
      ((∀ r ∈ b.rules, r.pattern.matches host port = false) ∧
          b.Matches host port = b.default)) ∧
    (∀ (default : Polarity) (port : Nat),
      Bypass.Matches { rules := scenarioRules, default := default }
        (.ip (ipv4 10 1 2 3)) port = .allow) := by
  constructor
  · intro b host port
    rcases track_last_match (fun r => r.pattern.matches host port) b.rules with
      ⟨pre, r, post, hsplit, hr, hpost, hres⟩ | ⟨hnone, hres⟩
    · left
      refine ⟨pre, r, post, hsplit, hr, hpost, ?_⟩
      unfold Bypass.Matches
      rw [hres]
      rfl
    · right
      refine ⟨hnone, ?_⟩
      unfold Bypass.Matches
      rw [hres]
      rfl
  · intro default port
    rfl

/-! ## Theorems about chain dialing -/

end Gost
